import Mathlib

set_option maxRecDepth 100000

/-!
Verification development for the feature-aggregation + multi-model
risk-fusion pipeline (Flask app `app.py`, Streamlit app `streamlit_app.py`,
feature script `compute_features.py`).

Numeric model: Python floats are idealised as exact rationals; the Python
`round(x, k)` (round-half-to-even on the decimal expansion) is idealised as
exact half-to-even rounding at `k` decimal places over `ℚ`.  Opaque ML
predictors (`predict_proba`, `predict`, `score_samples`) are parameters of
the embedded functions: each embedded pipeline takes the raw model outputs
as rational inputs, with `Option` encoding whether the model was loaded and
`Except` encoding a Python exception escaping a call.
-/

/-- Round-half-to-even to an integer, the idealisation of Python `round`. -/
def rhe (q : ℚ) : ℤ :=
  if q - ⌊q⌋ < 1/2 then ⌊q⌋
  else if (1:ℚ)/2 < q - ⌊q⌋ then ⌊q⌋ + 1
  else if ⌊q⌋ % 2 = 0 then ⌊q⌋ else ⌊q⌋ + 1

/-- Python `round(q, k)`: round to `k` decimal places, half to even. -/
def roundTo (k : ℕ) (q : ℚ) : ℚ := (rhe (q * 10 ^ k) : ℚ) / 10 ^ k

/-- Numpy `np.clip(x, lo, hi)`. -/
def npClip (x lo hi : ℚ) : ℚ := min (max x lo) hi

/-- The four-level tier ladder used by every composite-score tiering site:
`>= 75` CRITICAL, `>= 50` HIGH, `>= 25` MEDIUM, else LOW. -/
def tier4 (s : ℚ) : String :=
  if s ≥ 75 then "CRITICAL"
  else if s ≥ 50 then "HIGH"
  else if s ≥ 25 then "MEDIUM"
  else "LOW"

/-- Result dictionary of `predict_synthetic_ai`.  A component key is `none`
when the corresponding model was not loaded (the key is absent from the
Python dict). -/
structure SynResult where
  delay_probability : Option ℚ
  will_delay : Option String
  delay_risk_level : Option String
  predicted_delay_days : Option ℚ
  risk_score : ℚ
  risk_tier : String
  recommendation : String
deriving DecidableEq, Repr

/-- Embedding of `app.py` `predict_synthetic_ai`, after a successful model load.
`clf` is the raw `predict_proba[0, 1]` output of the delay classifier when
that model is loaded; `reg` is the raw `predict[0]` output of the delay-days
regressor when that model is loaded. -/
def predict_synthetic_ai (clf reg : Option ℚ) : SynResult :=
  let dpPct := clf.map (fun p => roundTo 2 (p * 100))
  let will := clf.map (fun p => if p > 0.5 then "Yes" else "No")
  let lvl := clf.map (fun p =>
    if p > 0.7 then "HIGH" else if p > 0.4 then "MEDIUM" else "LOW")
  let pdd := reg.map (fun d => roundTo 1 (max 0 d))
  let delay_prob := dpPct.getD 0 / 100
  let predicted_days := pdd.getD 0
  let risk_score := delay_prob * 60 + min (predicted_days / 90) 1 * 40
  let risk_tier := tier4 risk_score
  { delay_probability := dpPct
    will_delay := will
    delay_risk_level := lvl
    predicted_delay_days := pdd
    risk_score := roundTo 1 risk_score
    risk_tier := risk_tier
    recommendation :=
      if risk_tier = "CRITICAL" then "HIGH RISK - Require advance payment or collateral"
      else if risk_tier = "HIGH" then "ELEVATED RISK - Reduce credit terms, monitor closely"
      else if risk_tier = "MEDIUM" then "MODERATE RISK - Standard terms with monitoring"
      else "LOW RISK - Proceed with normal credit terms" }

/-- Embedding of `app.py` `predict_synthetic_ai` including the model-loading gate:
`load` is `.error` when `load_synthetic_ai_models` raised (returned `False`),
otherwise the pair of optional loaded models. -/
def predict_synthetic_ai_full (load : Except String (Option ℚ × Option ℚ)) :
    Except String SynResult :=
  match load with
  | .error _ => .error "Failed to load Synthetic AI models"
  | .ok (c, r) => .ok (predict_synthetic_ai c r)

/-- The `acceptance` entry of the `predict_lending_club` result dict. -/
structure AcceptanceEntry where
  probability : ℚ
  decision : String
  confidence : ℚ
deriving DecidableEq, Repr

/-- The `default` / `delay` entries of the `predict_lending_club` result dict. -/
structure LevelEntry where
  probability : ℚ
  risk_level : String
deriving DecidableEq, Repr

/-- The `fraud` entry of the `predict_lending_club` result dict. -/
structure FraudEntry where
  score : ℚ
  risk_level : String
  is_suspicious : String
deriving DecidableEq, Repr

/-- The `composite_risk` entry of the `predict_lending_club` result dict. -/
structure CompositeEntry where
  score : ℚ
  tier : String
deriving DecidableEq, Repr

/-- Result dictionary of `app.py` `predict_lending_club`.  A component entry
is `none` when the corresponding model was not loaded (key absent). -/
structure LCResult where
  acceptance : Option AcceptanceEntry
  default : Option LevelEntry
  delay : Option LevelEntry
  fraud : Option FraudEntry
  composite_risk : CompositeEntry
  recommendation : String
deriving DecidableEq, Repr

/-- Embedding of `app.py` `predict_lending_club`, after a successful model load.
`acc`, `defp`, `delp` are the raw `predict_proba[0, 1]` outputs of the
acceptance, default and delay classifiers when loaded; `anom` is the raw
`score_samples[0]` anomaly score of the fraud model when loaded. -/
def predict_lending_club (acc defp delp anom : Option ℚ) : LCResult :=
  let acceptance := acc.map (fun p =>
    { probability := roundTo 2 (p * 100)
      decision := if p ≥ 0.5 then "ACCEPT" else "REJECT"
      confidence := roundTo 2 (|p - 0.5| * 200) : AcceptanceEntry })
  let defaultE := defp.map (fun p =>
    { probability := roundTo 2 (p * 100)
      risk_level := if p > 0.3 then "HIGH" else if p > 0.15 then "MEDIUM" else "LOW" : LevelEntry })
  let delayE := delp.map (fun p =>
    { probability := roundTo 2 (p * 100)
      risk_level := if p > 0.25 then "HIGH" else if p > 0.1 then "MEDIUM" else "LOW" : LevelEntry })
  let fraudE := anom.map (fun a =>
    let fraud_score := npClip ((1 - (a - (-0.5)) / 0.5) * 100) 0 100
    { score := roundTo 2 fraud_score
      risk_level :=
        if fraud_score > 75 then "CRITICAL"
        else if fraud_score > 50 then "HIGH"
        else if fraud_score > 25 then "MEDIUM"
        else "LOW"
      is_suspicious := if fraud_score > 60 then "Yes" else "No" : FraudEntry })
  let default_prob := ((defaultE.map (fun e => e.probability)).getD 0) / 100
  let delay_prob := ((delayE.map (fun e => e.probability)).getD 0) / 100
  let fraud_score := ((fraudE.map (fun e => e.score)).getD 0) / 100
  let composite_score :=
    0.40 * default_prob * 100 + 0.30 * delay_prob * 100 + 0.30 * fraud_score * 100
  let composite : CompositeEntry := { score := roundTo 1 composite_score, tier := tier4 composite_score }
  let acceptance_decision := (acceptance.map (fun e => e.decision)).getD "UNKNOWN"
  { acceptance := acceptance
    default := defaultE
    delay := delayE
    fraud := fraudE
    composite_risk := composite
    recommendation :=
      if acceptance_decision = "REJECT" then
        "REJECT - Application does not meet acceptance criteria"
      else if composite.tier = "CRITICAL" then "REJECT - Critical risk level detected"
      else if composite.tier = "HIGH" then "REVIEW - Consider additional verification or higher rates"
      else if composite.tier = "MEDIUM" then "APPROVE - Monitor closely during term"
      else "APPROVE - Standard terms apply" }

/-- Embedding of `app.py` `predict_lending_club` including the model-loading gate. -/
def predict_lending_club_full
    (load : Except String (Option ℚ × Option ℚ × Option ℚ × Option ℚ)) :
    Except String LCResult :=
  match load with
  | .error _ => .error "Failed to load LendingClub models"
  | .ok (a, d, l, f) => .ok (predict_lending_club a d l f)

/-- One cleaned transaction record of `compute_features.py` after type
conversion: `DaysInPayment` is `none` when the invoice is not settled
(`NaN` after `pd.to_numeric`); date columns are not used by the
aggregation and are omitted. -/
structure Record where
  PartyName : String
  Amount : ℚ
  CreditDays : ℚ
  DaysInPayment : Option ℚ
  IsDelayed : Bool
deriving DecidableEq, Repr

/-- One row of the `party_stats` table produced by
`compute_party_features` / `process_synthetic_json`. -/
structure PartyRow where
  PartyName : String
  avg_delay_days : ℚ
  max_delay_days : ℚ
  std_delay_days : ℝ
  delayed_count : ℕ
  total_txn : ℕ
  total_value : ℚ
  avg_credit_days : ℚ
  on_time_rate : ℚ
  CreditDays : ℚ
  Amount : ℚ
  OutstandingAmount : ℚ

/-- Maximum of a list of rationals (pandas `max` over a group). -/
def listMax : List ℚ → ℚ
  | [] => 0
  | x :: xs => xs.foldl max x

/-- Sample variance with `ddof = 1` (the square of pandas `std`). -/
def sampleVar (xs : List ℚ) : ℚ :=
  let m := xs.sum / (xs.length : ℚ)
  (xs.map (fun x => (x - m) ^ 2)).sum / ((xs.length : ℚ) - 1)

/-- The `party_stats` row aggregated from one `PartyName` group `g` of
settled records: mean/max/std of `DaysInPayment`, sum of `IsDelayed`,
group size, sum of `Amount`, mean of `CreditDays`, the derived
`on_time_rate` and the regressor features.  Pandas `std` is `NaN` for a
single-element group and `fillna(0)` turns it into `0`. -/
noncomputable def mkPartyRow (name : String) (g : List Record) : PartyRow :=
  let days := g.map (fun r => r.DaysInPayment.getD 0)
  let n := g.length
  { PartyName := name
    avg_delay_days := days.sum / (n : ℚ)
    max_delay_days := listMax days
    std_delay_days := if n ≤ 1 then 0 else Real.sqrt (sampleVar days)
    delayed_count := (g.filter (fun r => r.IsDelayed)).length
    total_txn := n
    total_value := (g.map (fun r => r.Amount)).sum
    avg_credit_days := (g.map (fun r => r.CreditDays)).sum / (n : ℚ)
    on_time_rate := 1 - ((g.filter (fun r => r.IsDelayed)).length : ℚ) / (n : ℚ)
    CreditDays := (g.map (fun r => r.CreditDays)).sum / (n : ℚ)
    Amount := (g.map (fun r => r.Amount)).sum / (n : ℚ)
    OutstandingAmount := 0 }

/-- The settled subset: `settled_df = df.dropna(subset=["DaysInPayment"])`. -/
def settledOf (records : List Record) : List Record :=
  records.filter (fun r => r.DaysInPayment.isSome)

/-- The distinct group keys, first occurrence first.  (Pandas sorts group
keys; key order is immaterial to every property stated below, so the
embedding groups in first-appearance order.) -/
def dedupFirst (l : List String) : List String :=
  l.foldl (fun acc x => if x ∈ acc then acc else acc ++ [x]) []

/-- Embedding of `compute_features.py` `compute_party_features` (also
`process_synthetic_json` of `streamlit_app.py`): drop unsettled records,
group by `PartyName`, aggregate each group. -/
noncomputable def compute_party_features (records : List Record) : List PartyRow :=
  let s := settledOf records
  (dedupFirst (s.map (fun r => r.PartyName))).map
    (fun name => mkPartyRow name (s.filter (fun r => r.PartyName = name)))

namespace Streamlit

/-- Embedding of `streamlit_app.py` `predict_synthetic_ai`: same computation as the
`app.py` version, with the Streamlit recommendation strings. -/
def predict_synthetic_ai (clf reg : Option ℚ) : SynResult :=
  let dpPct := clf.map (fun p => roundTo 2 (p * 100))
  let will := clf.map (fun p => if p > 0.5 then "Yes" else "No")
  let lvl := clf.map (fun p =>
    if p > 0.7 then "HIGH" else if p > 0.4 then "MEDIUM" else "LOW")
  let pdd := reg.map (fun d => roundTo 1 (max 0 d))
  let delay_prob := dpPct.getD 0 / 100
  let predicted_days := pdd.getD 0
  let risk_score := delay_prob * 60 + min (predicted_days / 90) 1 * 40
  let risk_tier := tier4 risk_score
  { delay_probability := dpPct
    will_delay := will
    delay_risk_level := lvl
    predicted_delay_days := pdd
    risk_score := roundTo 1 risk_score
    risk_tier := risk_tier
    recommendation :=
      if risk_tier = "CRITICAL" then "⚠️ HIGH RISK - Require advance payment or collateral"
      else if risk_tier = "HIGH" then "⚠️ ELEVATED RISK - Reduce credit terms, monitor closely"
      else if risk_tier = "MEDIUM" then "✓ MODERATE RISK - Standard terms with monitoring"
      else "✅ LOW RISK - Proceed with normal credit terms" }

/-- One row of the result table of `generate_bulk_predictions`. -/
structure BulkRow where
  PartyName : String
  Delay_Probability : ℚ
  Expected_Delay_Days : ℚ
  Risk_Score : ℚ
  Risk_Tier : String
  Recommendation : String
deriving DecidableEq, Repr

/-- The verdict row `generate_bulk_predictions` builds for one party from
the raw classifier probability `p` and the raw regressor output `d`:
the risk score is computed from the unrounded values and the tier is
taken from the rounded score. -/
def bulk_row (name : String) (p d : ℚ) : BulkRow :=
  let delay_percent := roundTo 2 (p * 100)
  let predicted_days := max d 0
  let risk_score := roundTo 1 (p * 60 + min (predicted_days / 90) 1 * 40)
  let tr : String × String :=
    if risk_score ≥ 75 then ("CRITICAL", "⚠️ HIGH RISK - Require advance payment or collateral")
    else if risk_score ≥ 50 then ("HIGH", "⚠️ ELEVATED RISK - Reduce credit terms, monitor closely")
    else if risk_score ≥ 25 then ("MEDIUM", "✓ MODERATE RISK - Standard terms with monitoring")
    else ("LOW", "✅ LOW RISK - Proceed with normal credit terms")
  { PartyName := name
    Delay_Probability := delay_percent
    Expected_Delay_Days := roundTo 1 predicted_days
    Risk_Score := risk_score
    Risk_Tier := tr.1
    Recommendation := tr.2 }

/-- Scoring one row inside the `generate_bulk_predictions` loop.  The
opaque classifier and regressor are fallible: `.error` is a Python
exception raised by the model call (e.g. on a pathological feature
value). -/
def scoreRow (clf reg : PartyRow → Except String ℚ) (row : PartyRow) :
    Except String BulkRow := do
  let p ← clf row
  let d ← reg row
  pure (bulk_row row.PartyName p d)

/-- Embedding of `streamlit_app.py` `generate_bulk_predictions`: a plain `for` loop over
the rows with no per-row exception handling, so the first raised exception
propagates and aborts the whole loop. -/
def generate_bulk_predictions (clf reg : PartyRow → Except String ℚ) :
    List PartyRow → Except String (List BulkRow)
  | [] => .ok []
  | row :: rest =>
    match scoreRow clf reg row with
    | .error e => .error e
    | .ok b =>
      match generate_bulk_predictions clf reg rest with
      | .error e => .error e
      | .ok bs => .ok (b :: bs)

end Streamlit

/-- First record of the two-record entity-A scenario. -/
def recA1 : Record :=
  { PartyName := "A", Amount := 1000, CreditDays := 30, DaysInPayment := some 5, IsDelayed := false }

/-- Second record of the two-record entity-A scenario. -/
def recA2 : Record :=
  { PartyName := "A", Amount := 2000, CreditDays := 30, DaysInPayment := some 20, IsDelayed := true }

/-- A concrete feature row for party "A" (bulk-runner fixtures). -/
noncomputable def rowA : PartyRow :=
  { PartyName := "A", avg_delay_days := 0, max_delay_days := 0, std_delay_days := 0,
    delayed_count := 0, total_txn := 1, total_value := 0, avg_credit_days := 0,
    on_time_rate := 1, CreditDays := 0, Amount := 0, OutstandingAmount := 0 }

/-- A concrete feature row for party "B" (bulk-runner fixtures). -/
noncomputable def rowB : PartyRow :=
  { PartyName := "B", avg_delay_days := 0, max_delay_days := 0, std_delay_days := 0,
    delayed_count := 0, total_txn := 1, total_value := 0, avg_credit_days := 0,
    on_time_rate := 1, CreditDays := 0, Amount := 0, OutstandingAmount := 0 }

/-- A classifier that raises on party "A" (a pathological feature value)
and returns probability 1/2 elsewhere. -/
noncomputable def clf_fail : PartyRow → Except String ℚ :=
  fun r => if r.PartyName = "A" then .error "pathological feature value" else .ok (1/2)

/-- A regressor that always returns 0 days. -/
def reg_zero : PartyRow → Except String ℚ := fun _ => .ok 0

/-- Helper: the final recommendation of `predict_lending_club`, written as
the if-chain over the stored acceptance decision (with the UNKNOWN default)
and the stored composite tier. -/
theorem reco_spec (acc defp delp anom : Option ℚ) :
    (predict_lending_club acc defp delp anom).recommendation =
      (if ((predict_lending_club acc defp delp anom).acceptance.map (fun e => e.decision)).getD "UNKNOWN" = "REJECT" then
        "REJECT - Application does not meet acceptance criteria"
      else if (predict_lending_club acc defp delp anom).composite_risk.tier = "CRITICAL" then
        "REJECT - Critical risk level detected"
      else if (predict_lending_club acc defp delp anom).composite_risk.tier = "HIGH" then
        "REVIEW - Consider additional verification or higher rates"
      else if (predict_lending_club acc defp delp anom).composite_risk.tier = "MEDIUM" then
        "APPROVE - Monitor closely during term"
      else "APPROVE - Standard terms apply") := rfl

/-- Helper: the tier-determined recommendation strings never coincide with
the acceptance-override REJECT string. -/
theorem tier_reco_ne (t : String) :
    (if t = "CRITICAL" then "REJECT - Critical risk level detected"
     else if t = "HIGH" then "REVIEW - Consider additional verification or higher rates"
     else if t = "MEDIUM" then "APPROVE - Monitor closely during term"
     else "APPROVE - Standard terms apply") ≠
      "REJECT - Application does not meet acceptance criteria" := by
  repeat' split
  all_goals decide

/-- C1 counterexample: the claim computes risk_score as the rounded value
of the formula over the raw model outputs and tiers that rounded score; the
code rounds the component outputs first and tiers the unrounded composite.
At classifier output 0 and regressor output 0.14 the code reports risk
score 0.0 while the claimed formula rounds to 0.1; at regressor output
56.2 the code reports tier LOW although the reported risk score is 25.0,
which meets the claimed MEDIUM threshold. -/
theorem c1_counterexample :
    ((predict_synthetic_ai (some 0) (some (7/50))).risk_score = 0) ∧
    (roundTo 1 (60 * (0:ℚ) + 40 * min ((max 0 (7/50) : ℚ) / 90) 1) = 1/10) ∧
    ((0:ℚ) ≠ 1/10) ∧
    ((predict_synthetic_ai (some 0) (some (281/5))).risk_score = 25) ∧
    ((predict_synthetic_ai (some 0) (some (281/5))).risk_tier = "LOW") ∧
    (tier4 25 = "MEDIUM") := by
  refine ⟨?_, ?_, ?_, ?_, ?_, ?_⟩
  · with_unfolding_all rfl
  · with_unfolding_all rfl
  · with_unfolding_all decide
  · with_unfolding_all rfl
  · with_unfolding_all rfl
  · with_unfolding_all decide

/-- C1 (amended): for every raw classifier probability p and raw regressor
output d, the single-signal policy reports the delay probability as the
percentage 100p rounded to 2 decimals and the predicted days as max(0, d)
rounded to 1 decimal, computes risk = 60 p2 + 40 min(d1 / 90, 1) from those
rounded components p2 (as a fraction) and d1, reports risk rounded to 1
decimal, and assigns the tier thresholds (75 CRITICAL / 50 HIGH / 25
MEDIUM / else LOW) on the unrounded composite; p = 0.8 and d = 100 yield
risk_score 88.0 and tier CRITICAL. -/
theorem c1_single_signal_policy (p d : ℚ) :
    ((predict_synthetic_ai (some p) (some d)).delay_probability = some (roundTo 2 (p * 100))) ∧
    ((predict_synthetic_ai (some p) (some d)).predicted_delay_days = some (roundTo 1 (max 0 d))) ∧
    ((predict_synthetic_ai (some p) (some d)).risk_score =
      roundTo 1 (60 * (roundTo 2 (p * 100) / 100) + 40 * min (roundTo 1 (max 0 d) / 90) 1)) ∧
    ((predict_synthetic_ai (some p) (some d)).risk_tier =
      tier4 (60 * (roundTo 2 (p * 100) / 100) + 40 * min (roundTo 1 (max 0 d) / 90) 1)) ∧
    ((predict_synthetic_ai (some (0.8 : ℚ)) (some 100)).risk_score = 88) ∧
    ((predict_synthetic_ai (some (0.8 : ℚ)) (some 100)).risk_tier = "CRITICAL") := by
  refine ⟨rfl, rfl, ?_, ?_, ?_, ?_⟩
  · show roundTo 1 ((roundTo 2 (p * 100)) / 100 * 60 + min ((roundTo 1 (max 0 d)) / 90) 1 * 40) =
      roundTo 1 (60 * (roundTo 2 (p * 100) / 100) + 40 * min (roundTo 1 (max 0 d) / 90) 1)
    congr 1
    ring
  · show tier4 ((roundTo 2 (p * 100)) / 100 * 60 + min ((roundTo 1 (max 0 d)) / 90) 1 * 40) =
      tier4 (60 * (roundTo 2 (p * 100) / 100) + 40 * min (roundTo 1 (max 0 d) / 90) 1)
    congr 1
    ring
  · with_unfolding_all rfl
  · with_unfolding_all rfl

/-- C2 counterexample: the claim tiers the rounded composite score; the
code tiers the unrounded one.  With default probability 0.875, delay
probability 0.832 and anomaly score -0.25 (fraud score 50) the unrounded
composite is 74.96: the code reports score 75.0 with tier HIGH, while the
claimed thresholds on the reported score 75.0 give CRITICAL. -/
theorem c2_counterexample :
    ((predict_lending_club none (some (7/8)) (some (104/125)) (some (-(1:ℚ)/4))).composite_risk.score = 75) ∧
    ((predict_lending_club none (some (7/8)) (some (104/125)) (some (-(1:ℚ)/4))).composite_risk.tier = "HIGH") ∧
    (tier4 ((predict_lending_club none (some (7/8)) (some (104/125)) (some (-(1:ℚ)/4))).composite_risk.score)
      = "CRITICAL") := by
  refine ⟨?_, ?_, ?_⟩ <;> with_unfolding_all rfl

/-- C2 (amended): for every raw default probability, raw delay probability
and raw anomaly score, the multi-signal policy computes composite =
0.40 x default percent + 0.30 x delay percent + 0.30 x fraud score over
the rounded reported component values, reports it rounded to 1 decimal,
and assigns the 25/50/75 tier thresholds on the unrounded composite;
default 10 percent, delay 5 percent and fraud 20 give composite 11.5 and
tier LOW. -/
theorem c2_composite_policy (acc : Option ℚ) (pd pl a : ℚ) :
    ((predict_lending_club acc (some pd) (some pl) (some a)).composite_risk.score =
      roundTo 1 (0.40 * roundTo 2 (pd * 100) + 0.30 * roundTo 2 (pl * 100) +
        0.30 * roundTo 2 (npClip ((1 - (a - (-0.5)) / 0.5) * 100) 0 100))) ∧
    ((predict_lending_club acc (some pd) (some pl) (some a)).composite_risk.tier =
      tier4 (0.40 * roundTo 2 (pd * 100) + 0.30 * roundTo 2 (pl * 100) +
        0.30 * roundTo 2 (npClip ((1 - (a - (-0.5)) / 0.5) * 100) 0 100))) ∧
    ((predict_lending_club none (some 0.10) (some 0.05) (some (-0.1))).composite_risk.score = 23/2) ∧
    ((predict_lending_club none (some 0.10) (some 0.05) (some (-0.1))).composite_risk.tier = "LOW") := by
  refine ⟨?_, ?_, ?_, ?_⟩
  · show roundTo 1 _ = roundTo 1 _
    simp only [Option.map_some', Option.getD_some]
    congr 1
    ring
  · show tier4 _ = tier4 _
    simp only [Option.map_some', Option.getD_some]
    congr 1
    ring
  · with_unfolding_all rfl
  · with_unfolding_all rfl

/-- C3 counterexample: the reported fraud score is the clipped affine
transform rounded to 2 decimals, not the raw clipped value.  At anomaly
score -1/640 the transform gives 0.3125 but the code reports 0.31. -/
theorem c3_counterexample :
    ((((predict_lending_club none none none (some (-1/640 : ℚ))).fraud.map (fun e => e.score)).getD 0 = 31/100)) ∧
    (npClip ((1 - ((-1/640 : ℚ) - (-0.5)) / 0.5) * 100) 0 100 = 5/16) ∧
    ((31/100 : ℚ) ≠ 5/16) := by
  refine ⟨?_, ?_, ?_⟩
  · with_unfolding_all rfl
  · with_unfolding_all rfl
  · with_unfolding_all decide

/-- C3 (amended): for every raw anomaly score a, the reported fraud score
equals clip(100 x (1 - (a - (-0.5)) / 0.5), 0, 100) rounded to 2 decimals
(the clipped value itself equals clip(-200 a, 0, 100)); the anomaly scores
-0.5, 0, -1 and 0.5 give reported fraud scores 100, 0, 100 (saturated) and
0 (saturated), where the rounding is the identity. -/
theorem c3_fraud_transform (a : ℚ) :
    ((predict_lending_club none none none (some a)).fraud.map (fun e => e.score) =
      some (roundTo 2 (npClip ((1 - (a - (-0.5)) / 0.5) * 100) 0 100))) ∧
    (npClip ((1 - (a - (-0.5)) / 0.5) * 100) 0 100 = npClip (-200 * a) 0 100) ∧
    ((predict_lending_club none none none (some (-0.5 : ℚ))).fraud.map (fun e => e.score) = some 100) ∧
    ((predict_lending_club none none none (some (0 : ℚ))).fraud.map (fun e => e.score) = some 0) ∧
    ((predict_lending_club none none none (some (-1 : ℚ))).fraud.map (fun e => e.score) = some 100) ∧
    ((predict_lending_club none none none (some (0.5 : ℚ))).fraud.map (fun e => e.score) = some 0) := by
  refine ⟨rfl, ?_, ?_, ?_, ?_, ?_⟩
  · have h : (1 - (a - (-0.5)) / 0.5) * 100 = -200 * a := by ring
    rw [npClip, npClip, h]
  · with_unfolding_all rfl
  · with_unfolding_all rfl
  · with_unfolding_all rfl
  · with_unfolding_all rfl

/-- C4 (confirmed): the final recommendation follows the fixed precedence:
an acceptance decision REJECT yields the acceptance-override REJECT string
regardless of composite tier; otherwise composite tier CRITICAL yields the
critical-risk REJECT string, HIGH the REVIEW string, MEDIUM the
APPROVE-with-monitoring string, and LOW the APPROVE-standard-terms
string. -/
theorem c4_recommendation_precedence (acc defp delp anom : Option ℚ) :
    (((predict_lending_club acc defp delp anom).acceptance.map (fun e => e.decision)).getD "UNKNOWN" = "REJECT" →
      (predict_lending_club acc defp delp anom).recommendation =
        "REJECT - Application does not meet acceptance criteria") ∧
    (((predict_lending_club acc defp delp anom).acceptance.map (fun e => e.decision)).getD "UNKNOWN" ≠ "REJECT" →
      (((predict_lending_club acc defp delp anom).composite_risk.tier = "CRITICAL" →
        (predict_lending_club acc defp delp anom).recommendation = "REJECT - Critical risk level detected") ∧
      ((predict_lending_club acc defp delp anom).composite_risk.tier = "HIGH" →
        (predict_lending_club acc defp delp anom).recommendation = "REVIEW - Consider additional verification or higher rates") ∧
      ((predict_lending_club acc defp delp anom).composite_risk.tier = "MEDIUM" →
        (predict_lending_club acc defp delp anom).recommendation = "APPROVE - Monitor closely during term") ∧
      ((predict_lending_club acc defp delp anom).composite_risk.tier = "LOW" →
        (predict_lending_club acc defp delp anom).recommendation = "APPROVE - Standard terms apply"))) := by
  constructor
  · intro h
    rw [reco_spec, if_pos h]
  · intro h
    refine ⟨?_, ?_, ?_, ?_⟩ <;> intro ht <;> rw [reco_spec, if_neg h, ht] <;> decide

/-- C4 witness: acceptance probability 0.25 gives decision REJECT; with
default 100 percent, delay 100 percent and fraud 100 the composite tier is
CRITICAL, and the acceptance override still determines the final
recommendation. -/
theorem c4_recommendation_precedence_witness :
    ((((predict_lending_club (some (1/4)) (some 1) (some 1) (some (-1))).acceptance.map
        (fun e => e.decision)).getD "UNKNOWN" = "REJECT")) ∧
    ((predict_lending_club (some (1/4)) (some 1) (some 1) (some (-1))).composite_risk.tier = "CRITICAL") ∧
    ((predict_lending_club (some (1/4)) (some 1) (some 1) (some (-1))).recommendation =
      "REJECT - Application does not meet acceptance criteria") := by
  have hd : (((predict_lending_club (some (1/4)) (some 1) (some 1) (some (-1))).acceptance.map
      (fun e => e.decision)).getD "UNKNOWN" = "REJECT") := by with_unfolding_all rfl
  exact ⟨hd, by with_unfolding_all rfl,
    (c4_recommendation_precedence (some (1/4)) (some 1) (some 1) (some (-1))).1 hd⟩

/-- C5 (confirmed): a component whose model is missing is omitted from the
verdict (the entry is present exactly when the model is), contributes 0 to
the composite with the fixed 0.40/0.30/0.30 weights not renormalised, and
fusion still returns a verdict; with the fraud model missing and default
and delay at 50 percent the composite is 0.40 x 50 + 0.30 x 50 = 35.0,
tier MEDIUM. -/
theorem c5_missing_components (acc defp delp anom : Option ℚ) :
    ((predict_lending_club acc defp delp anom).acceptance.isSome = acc.isSome) ∧
    ((predict_lending_club acc defp delp anom).default.isSome = defp.isSome) ∧
    ((predict_lending_club acc defp delp anom).delay.isSome = delp.isSome) ∧
    ((predict_lending_club acc defp delp anom).fraud.isSome = anom.isSome) ∧
    ((predict_lending_club acc defp delp anom).composite_risk.score =
      roundTo 1 (0.40 * (match defp with | none => 0 | some p => roundTo 2 (p * 100)) +
        0.30 * (match delp with | none => 0 | some p => roundTo 2 (p * 100)) +
        0.30 * (match anom with
          | none => 0
          | some x => roundTo 2 (npClip ((1 - (x - (-0.5)) / 0.5) * 100) 0 100)))) ∧
    ((predict_lending_club acc defp delp anom).composite_risk.tier =
      tier4 (0.40 * (match defp with | none => 0 | some p => roundTo 2 (p * 100)) +
        0.30 * (match delp with | none => 0 | some p => roundTo 2 (p * 100)) +
        0.30 * (match anom with
          | none => 0
          | some x => roundTo 2 (npClip ((1 - (x - (-0.5)) / 0.5) * 100) 0 100)))) ∧
    ((predict_lending_club (some 0.5) (some 0.5) (some 0.5) none).fraud = none) ∧
    ((predict_lending_club (some 0.5) (some 0.5) (some 0.5) none).composite_risk.score = 35) ∧
    ((predict_lending_club (some 0.5) (some 0.5) (some 0.5) none).composite_risk.tier = "MEDIUM") := by
  have key : ∀ x y z : ℚ,
      0.40 * x + 0.30 * y + 0.30 * z =
        0.40 * (x / 100) * 100 + 0.30 * (y / 100) * 100 + 0.30 * (z / 100) * 100 := by
    intro x y z
    ring
  have hf : (predict_lending_club (some 0.5) (some 0.5) (some 0.5) none).fraud = none := rfl
  have hs : (predict_lending_club (some 0.5) (some 0.5) (some 0.5) none).composite_risk.score = 35 := by
    with_unfolding_all rfl
  have ht : (predict_lending_club (some 0.5) (some 0.5) (some 0.5) none).composite_risk.tier = "MEDIUM" := by
    with_unfolding_all rfl
  cases acc <;> cases defp <;> cases delp <;> cases anom <;>
    exact ⟨rfl, rfl, rfl, rfl, by rw [key]; rfl, by rw [key]; rfl, hf, hs, ht⟩

/-- C10 (confirmed): when the acceptance model is not loaded, the
acceptance entry is absent and the decision defaults to UNKNOWN rather
than REJECT, so the acceptance-override REJECT recommendation is never
produced and the final recommendation is determined by the composite tier
alone. -/
theorem c10_unknown_acceptance (defp delp anom : Option ℚ) :
    ((predict_lending_club none defp delp anom).acceptance = none) ∧
    ((predict_lending_club none defp delp anom).recommendation =
      (if (predict_lending_club none defp delp anom).composite_risk.tier = "CRITICAL" then
        "REJECT - Critical risk level detected"
      else if (predict_lending_club none defp delp anom).composite_risk.tier = "HIGH" then
        "REVIEW - Consider additional verification or higher rates"
      else if (predict_lending_club none defp delp anom).composite_risk.tier = "MEDIUM" then
        "APPROVE - Monitor closely during term"
      else "APPROVE - Standard terms apply")) ∧
    ((predict_lending_club none defp delp anom).recommendation ≠
      "REJECT - Application does not meet acceptance criteria") := by
  refine ⟨rfl, rfl, ?_⟩
  rw [reco_spec, if_neg (show
    ¬ (((predict_lending_club none defp delp anom).acceptance.map (fun e => e.decision)).getD "UNKNOWN" = "REJECT")
    from fun hcon => (by decide : ¬ ("UNKNOWN" : String) = "REJECT") hcon)]
  exact tier_reco_ne _

/-- Helper: scoring the head row with an error aborts the whole loop. -/
theorem gbp_cons_error {clf reg : PartyRow → Except String ℚ} {row : PartyRow} {rest : List PartyRow}
    {e : String} (h : Streamlit.scoreRow clf reg row = .error e) :
    Streamlit.generate_bulk_predictions clf reg (row :: rest) = .error e := by
  conv_lhs => rw [Streamlit.generate_bulk_predictions]
  rw [h]

/-- Helper: scoring the head row successfully continues with the rest. -/
theorem gbp_cons_ok {clf reg : PartyRow → Except String ℚ} {row : PartyRow} {rest : List PartyRow}
    {b : Streamlit.BulkRow} (h : Streamlit.scoreRow clf reg row = .ok b) :
    Streamlit.generate_bulk_predictions clf reg (row :: rest) =
      (match Streamlit.generate_bulk_predictions clf reg rest with
       | .error e => .error e
       | .ok bs => .ok (b :: bs)) := by
  conv_lhs => rw [Streamlit.generate_bulk_predictions]
  rw [h]

/-- Helper: a scoring failure on any row of the batch makes the whole bulk
run fail. -/
theorem bulk_error_of_mem (clf reg : PartyRow → Except String ℚ) (r : PartyRow)
    (hf : (Streamlit.scoreRow clf reg r).isOk = false) :
    ∀ rows : List PartyRow, r ∈ rows →
      (Streamlit.generate_bulk_predictions clf reg rows).isOk = false := by
  intro rows
  induction rows with
  | nil => intro h; exact absurd h (List.not_mem_nil r)
  | cons row rest ih =>
    intro h
    cases hsc : Streamlit.scoreRow clf reg row with
    | error e => rw [gbp_cons_error hsc]; rfl
    | ok b =>
      rcases List.mem_cons.mp h with h1 | h1
      · subst h1
        rw [hsc] at hf
        exact Bool.noConfusion hf
      · rw [gbp_cons_ok hsc]
        have hr := ih h1
        cases hgen : Streamlit.generate_bulk_predictions clf reg rest with
        | error e => rfl
        | ok bs => rw [hgen] at hr; exact Bool.noConfusion hr

/-- Helper: when every row scores successfully the bulk run returns one
verdict row per input row. -/
theorem bulk_ok_of_all (clf reg : PartyRow → Except String ℚ) :
    ∀ rows : List PartyRow, (∀ r ∈ rows, (Streamlit.scoreRow clf reg r).isOk = true) →
      ∃ out, Streamlit.generate_bulk_predictions clf reg rows = .ok out ∧
        out.length = rows.length := by
  intro rows
  induction rows with
  | nil => intro _; exact ⟨[], rfl, rfl⟩
  | cons row rest ih =>
    intro hall
    have hrow := hall row (List.mem_cons_self row rest)
    cases hsc : Streamlit.scoreRow clf reg row with
    | error e => rw [hsc] at hrow; exact Bool.noConfusion hrow
    | ok b =>
      obtain ⟨out, hout, hlen⟩ := ih (fun r hr => hall r (List.mem_cons_of_mem row hr))
      refine ⟨b :: out, ?_, by simp [hlen]⟩
      rw [gbp_cons_ok hsc, hout]

/-- C6 counterexample: with a classifier that raises on the first of two
rows, the bulk runner returns a single propagated error: the second row
receives no verdict and no partial result set or per-row error notes
exist. -/
theorem c6_counterexample :
    Streamlit.generate_bulk_predictions clf_fail reg_zero [rowA, rowB] =
      .error "pathological feature value" := by
  with_unfolding_all rfl

/-- C6 (amended): a failure while scoring one row aborts the whole batch:
if any row of the batch fails to score, the bulk runner returns a
propagated error and no result table; only when every row scores
successfully does it return one verdict row per input row. -/
theorem c6_bulk_failure_aborts (clf reg : PartyRow → Except String ℚ) (rows : List PartyRow) :
    ((∃ r ∈ rows, (Streamlit.scoreRow clf reg r).isOk = false) →
      (Streamlit.generate_bulk_predictions clf reg rows).isOk = false) ∧
    ((∀ r ∈ rows, (Streamlit.scoreRow clf reg r).isOk = true) →
      ∃ out, Streamlit.generate_bulk_predictions clf reg rows = .ok out ∧
        out.length = rows.length) := by
  constructor
  · rintro ⟨r, hr, hf⟩
    exact bulk_error_of_mem clf reg r hf rows hr
  · exact bulk_ok_of_all clf reg rows

/-- C6 witness: the failing fixture classifier raises on row A, and the
two-row batch containing row A produces no result table. -/
theorem c6_bulk_failure_aborts_witness :
    (rowA ∈ [rowA, rowB]) ∧
    ((Streamlit.scoreRow clf_fail reg_zero rowA).isOk = false) ∧
    ((Streamlit.generate_bulk_predictions clf_fail reg_zero [rowA, rowB]).isOk = false) := by
  have hm : rowA ∈ [rowA, rowB] := List.mem_cons_self rowA [rowB]
  have hf : (Streamlit.scoreRow clf_fail reg_zero rowA).isOk = false := by
    with_unfolding_all rfl
  exact ⟨hm, hf, (c6_bulk_failure_aborts clf_fail reg_zero [rowA, rowB]).1 ⟨rowA, hm, hf⟩⟩

/-- Helper: membership in the dedup fold starts from the accumulator or the
traversed list. -/
theorem mem_dedup_foldl (a : String) :
    ∀ (l acc : List String),
      a ∈ l.foldl (fun acc x => if x ∈ acc then acc else acc ++ [x]) acc → a ∈ acc ∨ a ∈ l := by
  intro l
  induction l with
  | nil => intro acc h; exact Or.inl h
  | cons x xs ih =>
    intro acc h
    rw [List.foldl_cons] at h
    rcases ih _ h with h2 | h2
    · by_cases hx : x ∈ acc
      · rw [if_pos hx] at h2
        exact Or.inl h2
      · rw [if_neg hx] at h2
        rcases List.mem_append.mp h2 with h3 | h3
        · exact Or.inl h3
        · exact Or.inr (List.mem_cons.mpr (Or.inl (List.mem_singleton.mp h3)))
    · exact Or.inr (List.mem_cons_of_mem x h2)

/-- Helper: every deduplicated key occurs in the original key list. -/
theorem mem_of_mem_dedupFirst {a : String} {l : List String} (h : a ∈ dedupFirst l) : a ∈ l := by
  rcases mem_dedup_foldl a l [] h with h1 | h1
  · exact absurd h1 (List.not_mem_nil a)
  · exact h1

/-- C7 (confirmed): the aggregation drops records with no days_in_payment,
groups the rest by entity id, and every output row is the aggregate of its
settled group: total_txn is the group size and at least 1, on_time_rate
equals 1 - delayed_count / total_txn and lies in [0, 1], the standard
deviation of a single-record group is exactly 0, and the two-record
entity-A scenario yields avg_delay_days 12.5, max 20, delayed_count 1,
total_txn 2, on_time_rate 0.5, total_value 3000 and Amount 1500. -/
theorem c7_feature_aggregation (records : List Record) (row : PartyRow)
    (hrow : row ∈ compute_party_features records) :
    (row = mkPartyRow row.PartyName
      ((settledOf records).filter (fun r => r.PartyName = row.PartyName))) ∧
    (1 ≤ row.total_txn) ∧
    (row.on_time_rate = 1 - (row.delayed_count : ℚ) / (row.total_txn : ℚ)) ∧
    (0 ≤ row.on_time_rate) ∧
    (row.on_time_rate ≤ 1) ∧
    (row.total_txn = 1 → row.std_delay_days = 0) ∧
    (compute_party_features [recA1, recA2] = [mkPartyRow "A" [recA1, recA2]]) ∧
    ((mkPartyRow "A" [recA1, recA2]).avg_delay_days = 25/2) ∧
    ((mkPartyRow "A" [recA1, recA2]).max_delay_days = 20) ∧
    ((mkPartyRow "A" [recA1, recA2]).delayed_count = 1) ∧
    ((mkPartyRow "A" [recA1, recA2]).total_txn = 2) ∧
    ((mkPartyRow "A" [recA1, recA2]).on_time_rate = 1/2) ∧
    ((mkPartyRow "A" [recA1, recA2]).total_value = 3000) ∧
    ((mkPartyRow "A" [recA1, recA2]).Amount = 1500) := by
  simp only [compute_party_features] at hrow
  obtain ⟨name, hname, heq⟩ := List.mem_map.mp hrow
  obtain ⟨r, hrs, hrname⟩ := List.mem_map.mp (mem_of_mem_dedupFirst hname)
  have hrfil : r ∈ (settledOf records).filter (fun r => r.PartyName = name) :=
    List.mem_filter.mpr ⟨hrs, decide_eq_true hrname⟩
  have hglen : 1 ≤ ((settledOf records).filter (fun r => r.PartyName = name)).length :=
    List.length_pos.mpr (List.ne_nil_of_mem hrfil)
  subst heq
  have hle : (((settledOf records).filter (fun r => r.PartyName = name)).filter
      (fun r => r.IsDelayed)).length ≤
      ((settledOf records).filter (fun r => r.PartyName = name)).length :=
    List.length_filter_le _ _
  have hn : (0:ℚ) < (((settledOf records).filter (fun r => r.PartyName = name)).length : ℚ) := by
    exact_mod_cast hglen
  have hx1 : ((((settledOf records).filter (fun r => r.PartyName = name)).filter
      (fun r => r.IsDelayed)).length : ℚ) /
      (((settledOf records).filter (fun r => r.PartyName = name)).length : ℚ) ≤ 1 :=
    (div_le_one hn).mpr (by exact_mod_cast hle)
  have hx0 : 0 ≤ ((((settledOf records).filter (fun r => r.PartyName = name)).filter
      (fun r => r.IsDelayed)).length : ℚ) /
      (((settledOf records).filter (fun r => r.PartyName = name)).length : ℚ) :=
    div_nonneg (by positivity) (le_of_lt hn)
  refine ⟨rfl, hglen, rfl, ?_, ?_, ?_, ?_, ?_, ?_, ?_, ?_, ?_, ?_, ?_⟩
  · show (0:ℚ) ≤ 1 - _ / _
    linarith
  · show (1:ℚ) - _ / _ ≤ 1
    linarith
  · intro h1
    have h1l : ((settledOf records).filter (fun r => r.PartyName = name)).length = 1 := h1
    show (if ((settledOf records).filter (fun r => r.PartyName = name)).length ≤ 1 then (0:ℝ)
      else Real.sqrt (sampleVar (((settledOf records).filter (fun r => r.PartyName = name)).map
        (fun r => r.DaysInPayment.getD 0)))) = 0
    rw [if_pos (by omega)]
  · rfl
  · with_unfolding_all rfl
  · with_unfolding_all rfl
  · with_unfolding_all rfl
  · with_unfolding_all rfl
  · with_unfolding_all rfl
  · with_unfolding_all rfl
  · with_unfolding_all rfl

/-- C7 witness: the entity-A aggregate row is a member of the aggregation
output for the two-record scenario, and its on_time_rate lies in [0, 1]. -/
theorem c7_feature_aggregation_witness :
    (mkPartyRow "A" [recA1, recA2] ∈ compute_party_features [recA1, recA2]) ∧
    (0 ≤ (mkPartyRow "A" [recA1, recA2]).on_time_rate) ∧
    ((mkPartyRow "A" [recA1, recA2]).on_time_rate ≤ 1) := by
  have hm : mkPartyRow "A" [recA1, recA2] ∈ compute_party_features [recA1, recA2] := by
    have he : compute_party_features [recA1, recA2] = [mkPartyRow "A" [recA1, recA2]] := rfl
    rw [he]
    exact List.mem_singleton.mpr rfl
  have h := c7_feature_aggregation [recA1, recA2] (mkPartyRow "A" [recA1, recA2]) hm
  exact ⟨hm, h.2.2.2.1, h.2.2.2.2.1⟩

/-- C8 counterexample: with model loading succeeding but no model present,
the pipeline returns a normal-looking degraded verdict (risk score 0.0,
tier LOW, normal-terms recommendation), not an explicit no-verdict or
error result. -/
theorem c8_counterexample :
    predict_synthetic_ai_full (.ok (none, none)) =
      .ok { delay_probability := none, will_delay := none, delay_risk_level := none,
            predicted_delay_days := none, risk_score := 0, risk_tier := "LOW",
            recommendation := "LOW RISK - Proceed with normal credit terms" } := by
  with_unfolding_all rfl

/-- C8 (amended): no exception escapes the pipeline boundary: when model
loading raises, the pipeline returns the explicit load-failure error
result; when loading succeeds but no usable model is present, it returns a
degraded verdict with no component outputs, risk score 0.0, tier LOW and
the normal-terms recommendation, rather than an explicit no-verdict
result. -/
theorem c8_no_models_degraded :
    (∀ e : String, predict_synthetic_ai_full (.error e) = .error "Failed to load Synthetic AI models") ∧
    (predict_synthetic_ai_full (.ok (none, none)) = .ok (predict_synthetic_ai none none)) ∧
    ((predict_synthetic_ai none none).delay_probability = none) ∧
    ((predict_synthetic_ai none none).predicted_delay_days = none) ∧
    ((predict_synthetic_ai none none).risk_score = 0) ∧
    ((predict_synthetic_ai none none).risk_tier = "LOW") ∧
    ((predict_synthetic_ai none none).recommendation = "LOW RISK - Proceed with normal credit terms") := by
  refine ⟨fun e => rfl, rfl, rfl, rfl, ?_, ?_, ?_⟩ <;> with_unfolding_all rfl

/-- Helper: the first component of the bulk tier/recommendation pair is the
shared four-level tier of the rounded risk score. -/
theorem pair_fst_tier (s : ℚ) (r1 r2 r3 r4 : String) :
    (if s ≥ 75 then ("CRITICAL", r1)
     else if s ≥ 50 then ("HIGH", r2)
     else if s ≥ 25 then ("MEDIUM", r3)
     else ("LOW", r4)).1 = tier4 s := by
  by_cases h1 : s ≥ 75
  · simp [tier4, h1]
  · by_cases h2 : s ≥ 50
    · simp [tier4, h1, h2]
    · by_cases h3 : s ≥ 25
      · simp [tier4, h1, h2, h3]
      · simp [tier4, h1, h2, h3]

/-- C9 counterexample: at classifier probability 0 and regressor output
0.14 the bulk runner reports risk score 0.1 (computed from the raw days)
while the single-prediction policy reports 0.0 (computed from the days
rounded to 1 decimal), so the bulk verdict differs from the
single-prediction verdict on the same features. -/
theorem c9_counterexample :
    ((Streamlit.bulk_row "A" 0 (7/50)).Risk_Score = 1/10) ∧
    ((Streamlit.predict_synthetic_ai (some 0) (some (7/50))).risk_score = 0) ∧
    ((1/10 : ℚ) ≠ 0) := by
  refine ⟨?_, ?_, ?_⟩
  · with_unfolding_all rfl
  · with_unfolding_all rfl
  · with_unfolding_all decide

/-- C9 (amended): for every feature row the bulk runner and the
single-prediction policy agree on the reported delay probability and
expected delay days, but the bulk risk score is the rounded value of the
formula over the raw classifier probability and raw clamped days with the
tier taken from the rounded score, whereas the single-prediction policy
computes the formula over rounded components and tiers the unrounded
value, so risk score, tier and recommendation can differ at rounding
boundaries. -/
theorem c9_bulk_vs_single (name : String) (p d : ℚ) :
    ((Streamlit.bulk_row name p d).PartyName = name) ∧
    ((Streamlit.predict_synthetic_ai (some p) (some d)).delay_probability =
      some ((Streamlit.bulk_row name p d).Delay_Probability)) ∧
    ((Streamlit.predict_synthetic_ai (some p) (some d)).predicted_delay_days =
      some ((Streamlit.bulk_row name p d).Expected_Delay_Days)) ∧
    ((Streamlit.bulk_row name p d).Risk_Score = roundTo 1 (60 * p + 40 * min (max d 0 / 90) 1)) ∧
    ((Streamlit.bulk_row name p d).Risk_Tier = tier4 ((Streamlit.bulk_row name p d).Risk_Score)) := by
  refine ⟨rfl, rfl, ?_, ?_, ?_⟩
  · show some (roundTo 1 (max 0 d)) = some (roundTo 1 (max d 0))
    rw [max_comm]
  · show roundTo 1 _ = roundTo 1 _
    congr 1
    ring
  · exact pair_fst_tier _ _ _ _ _
